import Mathlib

/-!
Verification of the PyAbsence presence-debounce-and-notify controller
(src/app.py) against its specification.

The embedding follows the source:
* the controller state is the pair of mutable locals `absent_count` /
  `notified` of `main` (app.py lines 161-162);
* one iteration of the `while True` loop (lines 163-180), minus the
  sleep, is `runCycle`;
* the absence verdict (line 166) is `isAbsent`;
* the publish retry loop `MqttClient.__publish__` (lines 125-134) is
  `publishRun` / `publishResult`, driven by an oracle giving the status
  code of each publish attempt;
* the scan call `who()` (line 164) has no exception handler in `main`;
  `runCycleScan` threads a possibly-failing scan result through the
  cycle as an `Except`.
-/

namespace PyAbsence

/-- Controller state: the two mutable locals of `main`
(`absent_count = 0`, `notified = False`, app.py lines 161-162). -/
structure CtrlState where
  absent_count : Nat
  notified : Bool
deriving DecidableEq, Repr

/-- Initial controller state at the top of `main`. -/
def initState : CtrlState := ⟨0, false⟩

/-- Absence verdict of one cycle, app.py line 166:
`absent = sum([1 for s in config.triggers if s in mac_addresses]) == 0`. -/
def isAbsent (triggers mac_addresses : List String) : Bool :=
  List.countP (fun s => mac_addresses.contains s) triggers == 0

/-- One iteration of the cycle loop of `main` (app.py lines 166-179),
given the extracted MAC-address list of this cycle.  Returns the updated
state and whether a notification was dispatched this cycle. -/
def runCycle (triggers : List String) (retries : Int) (s : CtrlState)
    (mac_addresses : List String) : CtrlState × Bool :=
  let s1 : CtrlState :=
    if isAbsent triggers mac_addresses then
      { s with absent_count := s.absent_count + 1 }
    else
      { absent_count := 0, notified := false }
  if (s1.absent_count : Int) > retries ∧ s1.notified = false then
    ({ s1 with notified := true }, true)
  else
    (s1, false)

/-- State after processing a sequence of per-cycle observations. -/
def runCycles (triggers : List String) (retries : Int) :
    CtrlState → List (List String) → CtrlState
  | s, [] => s
  | s, obs :: rest =>
    runCycles triggers retries (runCycle triggers retries s obs).1 rest

/-- Per-cycle notification dispatch flags along an observation sequence. -/
def fireFlags (triggers : List String) (retries : Int) :
    CtrlState → List (List String) → List Bool
  | _, [] => []
  | s, obs :: rest =>
    (runCycle triggers retries s obs).2 ::
      fireFlags triggers retries (runCycle triggers retries s obs).1 rest

/-- Total number of notifications dispatched along an observation
sequence. -/
def fireCount (triggers : List String) (retries : Int) (s : CtrlState)
    (obss : List (List String)) : Nat :=
  (fireFlags triggers retries s obss).count true

/-- Length of the maximal trailing run of absent cycles, formalising the
spec phrase "the length of the maximal trailing run of no-trigger-present
cycles ending at the current cycle".  Stated independently of the
controller, directly from the spec words. -/
def trailingAbsentRun (triggers : List String)
    (obss : List (List String)) : Nat :=
  (obss.reverse.takeWhile (fun o => isAbsent triggers o)).length

/-- Retry loop of `MqttClient.__publish__` (app.py lines 125-134).  The
external broker is abstracted by an oracle `statuses`: attempt `i`
returns acknowledgment status `statuses i`, with `0` meaning success
(`status = result[0]`, line 129).  `publishRun statuses a fuel` runs the
`while attempts < 5` loop from `attempts = a` with `fuel = 5 - a` guard
iterations remaining; it returns the total number of attempts performed
and whether one of them succeeded. -/
def publishRun (statuses : Nat → Int) : Nat → Nat → Nat × Bool
  | a, 0 => (a, false)
  | a, fuel + 1 =>
    if statuses a = 0 then (a + 1, true)
    else publishRun statuses (a + 1) fuel

/-- Outcome of one `__publish__` call: the loop starts at `attempts = 0`
and the guard `attempts < 5` allows at most 5 iterations. -/
def publishResult (statuses : Nat → Int) : Nat × Bool :=
  publishRun statuses 0 5

/-- Log message produced by the connection-result callback
`MqttClient.on_connect` (app.py lines 118-123), selected by the result
code `rc` handed to the callback. -/
def on_connect (rc : Int) : String :=
  if rc = 0 then "Connected to MQTT Broker!"
  else "Failed to connect, return code %d\n"

/-- Modelled from the spec: the behaviour of the external broker client
(the paho library object wrapped by `MqttClient`) is not part of this
repository.  Per the spec, a connection failure is reported through the
connection-result callback with a non-zero result code and does not
raise, and each publish attempt returns an acknowledgment status.  The
environment records the connection result code and the per-attempt
publish statuses of one `notify` call. -/
structure BrokerEnv where
  rc : Int
  statuses : Nat → Int

/-- `MqttClient.notify` (app.py lines 136-147): connect — reporting the
result code through `on_connect` — then run the publish retry loop.
Returns the connection log line and the publish outcome; it is a total
function of the broker environment, mirroring that the source contains
no raise and no failure-dependent control flow in this path. -/
def notify (env : BrokerEnv) : String × Nat × Bool :=
  (on_connect env.rc, publishResult env.statuses)

/-- One controller cycle together with its optional notify call,
threading the broker environment (app.py lines 163-180). -/
def runCycleNotify (env : BrokerEnv) (triggers : List String)
    (retries : Int) (s : CtrlState) (mac_addresses : List String) :
    CtrlState × Option (String × Nat × Bool) :=
  let r := runCycle triggers retries s mac_addresses
  (r.1, if r.2 then some (notify env) else none)

/-- Device record returned by the scanner `who()`; `main` reads only the
hardware-address field `device[3]` (app.py line 165), modelled as the
fourth field `mac`. -/
structure Device where
  f0 : String
  f1 : String
  f2 : String
  mac : String

/-- MAC extraction of app.py line 165:
`mac_addresses = [device[3] for device in devices]`. -/
def macAddresses (devices : List Device) : List String :=
  devices.map Device.mac

/-- One cycle of `main` including the scan call (app.py lines 163-179):
the scan result is either the device list or a raised exception, and
`main` has no handler around `who()`, so a scan exception propagates out
of the cycle body. -/
def runCycleScan (triggers : List String) (retries : Int)
    (scan : Except String (List Device)) (s : CtrlState) :
    Except String (CtrlState × Bool) :=
  match scan with
  | Except.error e => Except.error e
  | Except.ok devices =>
    Except.ok (runCycle triggers retries s (macAddresses devices))

lemma runCycle_fst_absent_count (triggers : List String) (retries : Int)
    (s : CtrlState) (macs : List String) :
    (runCycle triggers retries s macs).1.absent_count =
      if isAbsent triggers macs then s.absent_count + 1 else 0 := by
  unfold runCycle
  dsimp only
  split_ifs <;> rfl

lemma runCycles_append (triggers : List String) (retries : Int)
    (s : CtrlState) (xs ys : List (List String)) :
    runCycles triggers retries s (xs ++ ys) =
      runCycles triggers retries (runCycles triggers retries s xs) ys := by
  induction xs generalizing s with
  | nil => rfl
  | cons x xs ih => simp [runCycles, ih]

/-- C1: after processing any finite observation sequence from the
initial state, `absent_count` equals the length of the maximal trailing
run of cycles in which no configured trigger address was observed. -/
theorem absent_count_eq_trailing_run (triggers : List String)
    (retries : Int) (obss : List (List String)) :
    (runCycles triggers retries initState obss).absent_count =
      trailingAbsentRun triggers obss := by
  induction obss using List.reverseRecOn with
  | nil => rfl
  | append_singleton xs x ih =>
    rw [runCycles_append]
    unfold trailingAbsentRun
    rw [List.reverse_append]
    simp only [List.reverse_singleton, List.singleton_append]
    rw [runCycles, runCycles, runCycle_fst_absent_count]
    by_cases h : isAbsent triggers x
    · rw [if_pos h, List.takeWhile_cons_of_pos (by simpa using h)]
      simp [ih, trailingAbsentRun]
    · rw [if_neg h, List.takeWhile_cons_of_neg (by simpa using h)]
      rfl

lemma runCycle_absent_run_step (triggers : List String) (r : Nat)
    (macs : List String) (h : isAbsent triggers macs = true) (j : Nat) :
    runCycle triggers (r : Int) ⟨j, decide (r < j)⟩ macs =
      (⟨j + 1, decide (r < j + 1)⟩, decide (j = r)) := by
  unfold runCycle
  dsimp only
  rw [if_pos h]
  dsimp only
  rcases Nat.lt_trichotomy j r with hlt | heq | hgt
  · have d1 : decide (r < j) = false := decide_eq_false (by omega)
    have d2 : decide (r < j + 1) = false := decide_eq_false (by omega)
    have d3 : decide (j = r) = false := decide_eq_false (by omega)
    rw [d1, d2, d3, if_neg (fun hc => absurd hc.1 (by omega))]
  · subst heq
    have d1 : decide (j < j) = false := decide_eq_false (by omega)
    have d2 : decide (j < j + 1) = true := decide_eq_true (by omega)
    have d3 : decide (j = j) = true := decide_eq_true rfl
    rw [d1, d2, d3, if_pos ⟨by omega, rfl⟩]
  · have d1 : decide (r < j) = true := decide_eq_true hgt
    have d2 : decide (r < j + 1) = true := decide_eq_true (by omega)
    have d3 : decide (j = r) = false := decide_eq_false (by omega)
    rw [d1, d2, d3, if_neg (fun hc => absurd hc.2 (by simp))]

lemma runCycles_absent_run (triggers : List String) (r : Nat) :
    ∀ obss : List (List String), (∀ o ∈ obss, isAbsent triggers o = true) →
    ∀ j : Nat, runCycles triggers (r : Int) ⟨j, decide (r < j)⟩ obss =
      ⟨j + obss.length, decide (r < j + obss.length)⟩ := by
  intro obss
  induction obss with
  | nil => intro _ j; simp [runCycles]
  | cons o rest ih =>
    intro hall j
    rw [runCycles, runCycle_absent_run_step triggers r o (hall o (by simp)) j,
      ih (fun o2 h2 => hall o2 (by simp [h2])) (j + 1)]
    have hlen : j + 1 + rest.length = j + (o :: rest).length := by
      simp [List.length_cons]; omega
    rw [hlen]

lemma fireFlags_absent_run_getD (triggers : List String) (r : Nat) :
    ∀ obss : List (List String), (∀ o ∈ obss, isAbsent triggers o = true) →
    ∀ j i : Nat,
      (fireFlags triggers (r : Int) ⟨j, decide (r < j)⟩ obss).getD i false =
        decide (j + i = r ∧ i < obss.length) := by
  intro obss
  induction obss with
  | nil => intro _ j i; simp [fireFlags]
  | cons o rest ih =>
    intro hall j i
    rw [fireFlags, runCycle_absent_run_step triggers r o (hall o (by simp)) j]
    cases i with
    | zero =>
      rw [List.getD_cons_zero, decide_eq_decide]
      simp only [List.length_cons]
      omega
    | succ i2 =>
      rw [List.getD_cons_succ,
        ih (fun o2 h2 => hall o2 (by simp [h2])) (j + 1) i2, decide_eq_decide]
      simp only [List.length_cons]
      omega

lemma fireCount_absent_run (triggers : List String) (r : Nat) :
    ∀ obss : List (List String), (∀ o ∈ obss, isAbsent triggers o = true) →
    ∀ j : Nat, fireCount triggers (r : Int) ⟨j, decide (r < j)⟩ obss =
      if j ≤ r ∧ r < j + obss.length then 1 else 0 := by
  intro obss
  induction obss with
  | nil =>
    intro _ j
    simp only [fireCount, fireFlags, List.count_nil, List.length_nil]
    rw [if_neg (by omega)]
  | cons o rest ih =>
    intro hall j
    rw [fireCount, fireFlags, runCycle_absent_run_step triggers r o (hall o (by simp)) j,
      List.count_cons]
    have hrest := ih (fun o2 h2 => hall o2 (by simp [h2])) (j + 1)
    rw [fireCount] at hrest
    rw [hrest]
    simp only [List.length_cons]
    rcases Nat.lt_trichotomy j r with hlt | heq | hgt
    · have d3 : decide (j = r) = false := decide_eq_false (by omega)
      rw [d3]
      split_ifs <;> simp_all <;> omega
    · subst heq
      have d3 : decide (j = j) = true := decide_eq_true rfl
      rw [d3]
      split_ifs <;> simp_all
    · have d3 : decide (j = r) = false := decide_eq_false (by omega)
      rw [d3]
      split_ifs <;> simp_all <;> omega

lemma runCycle_snd_true_notified (triggers : List String) (retries : Int)
    (s : CtrlState) (macs : List String) :
    (runCycle triggers retries s macs).2 = true →
    (runCycle triggers retries s macs).1.notified = true := by
  unfold runCycle
  dsimp only
  split_ifs <;> simp

lemma fireCount_notified_absent (triggers : List String) (retries : Int) :
    ∀ obss : List (List String), (∀ o ∈ obss, isAbsent triggers o = true) →
    ∀ c : Nat, fireCount triggers retries ⟨c, true⟩ obss = 0 := by
  intro obss
  induction obss with
  | nil => intro _ c; rfl
  | cons o rest ih =>
    intro hall c
    have ho := hall o (by simp)
    have hstep : runCycle triggers retries ⟨c, true⟩ o = (⟨c + 1, true⟩, false) := by
      unfold runCycle
      dsimp only
      rw [if_pos ho]
      dsimp only
      rw [if_neg (fun hc => absurd hc.2 (by simp))]
    rw [fireCount, fireFlags, hstep]
    have hrest := ih (fun o2 h2 => hall o2 (by simp [h2])) (c + 1)
    rw [fireCount] at hrest
    simp [List.count_cons, hrest]

lemma fireCount_absent_le_one (triggers : List String) (retries : Int) :
    ∀ obss : List (List String), (∀ o ∈ obss, isAbsent triggers o = true) →
    ∀ s : CtrlState, fireCount triggers retries s obss ≤ 1 := by
  intro obss
  induction obss with
  | nil => intro _ s; simp [fireCount, fireFlags]
  | cons o rest ih =>
    intro hall s
    rcases hres : runCycle triggers retries s o with ⟨s2, fire⟩
    rw [fireCount, fireFlags, hres]
    dsimp only
    rw [List.count_cons]
    cases fire with
    | false =>
      have hrest := ih (fun o2 h2 => hall o2 (by simp [h2])) s2
      rw [fireCount] at hrest
      simpa using hrest
    | true =>
      have hnot : s2.notified = true := by
        have h2 := runCycle_snd_true_notified triggers retries s o (by rw [hres])
        rwa [hres] at h2
      have hz := fireCount_notified_absent triggers retries rest
        (fun o2 h2 => hall o2 (by simp [h2])) s2.absent_count
      rw [fireCount] at hz
      have hs2 : s2 = ⟨s2.absent_count, true⟩ := by
        cases s2
        simp_all
      rw [hs2, hz]
      simp

/-- C2: assuming a non-negative `retries`, a notification is dispatched on
a cycle iff the updated `absent_count` strictly exceeds `retries` and
`notified` was false entering the cycle; moreover along any run of absent
cycles (an absence episode) started in any state, at most one
notification is dispatched. -/
theorem notification_iff_threshold_and_once_per_episode
    (triggers : List String) (retries : Int) (s : CtrlState)
    (macs : List String) (obss : List (List String)) (h : 0 ≤ retries)
    (hall : ∀ o ∈ obss, isAbsent triggers o = true) :
    ((runCycle triggers retries s macs).2 = true ↔
      ((runCycle triggers retries s macs).1.absent_count : Int) > retries ∧
        s.notified = false)
    ∧ fireCount triggers retries s obss ≤ 1 := by
  constructor
  · unfold runCycle
    dsimp only
    by_cases habs : isAbsent triggers macs
    · rw [if_pos habs]
      dsimp only
      split_ifs with hc
      · exact iff_of_true rfl hc
      · exact iff_of_false (by simp) hc
    · rw [if_neg habs]
      dsimp only
      rw [if_neg (fun hc => by have h1 := hc.1; omega)]
      exact iff_of_false (by simp)
        (fun hc => by have h1 := hc.1; simp at h1; omega)
  · exact fireCount_absent_le_one triggers retries obss hall s

/-- C3: from the initial state, along a run of absent cycles the
notification is dispatched exactly on the cycle with 0-based index
`retries`, i.e. on the (retries + 1)-th consecutive absent cycle (so with
`retries = 0` the very first absent cycle already fires). -/
theorem strict_threshold_fires_on_retries_plus_one (triggers : List String)
    (r : Nat) (obss : List (List String)) (i : Nat)
    (hall : ∀ o ∈ obss, isAbsent triggers o = true) :
    ((fireFlags triggers (r : Int) initState obss).getD i false = true ↔
      (i = r ∧ r < obss.length)) := by
  have h0 : initState = (⟨0, decide (r < 0)⟩ : CtrlState) := by
    simp [initState]
  rw [h0, fireFlags_absent_run_getD triggers r obss hall 0 i,
    decide_eq_true_eq]
  omega

lemma fireFlags_append (triggers : List String) (retries : Int)
    (s : CtrlState) (xs ys : List (List String)) :
    fireFlags triggers retries s (xs ++ ys) =
      fireFlags triggers retries s xs ++
        fireFlags triggers retries (runCycles triggers retries s xs) ys := by
  induction xs generalizing s with
  | nil => rfl
  | cons x xs ih => simp [fireFlags, runCycles, ih]

/-- C4: with a non-negative `retries`, a cycle observing at least one
configured trigger resets the state to `absent_count = 0`,
`notified = false`, whatever the prior state was, and repeating such a
presence cycle from the reset state leaves it unchanged. -/
theorem presence_resets_state_idempotent (triggers : List String)
    (retries : Int) (s : CtrlState) (macs : List String)
    (h : 0 ≤ retries) (hp : isAbsent triggers macs = false) :
    (runCycle triggers retries s macs).1 = initState ∧
    (runCycle triggers retries (runCycle triggers retries s macs).1
      macs).1 = initState := by
  have hcond : ¬(isAbsent triggers macs = true) := by simp [hp]
  have hstep : ∀ s2 : CtrlState,
      (runCycle triggers retries s2 macs).1 = initState := by
    intro s2
    unfold runCycle
    dsimp only
    rw [if_neg hcond]
    split_ifs with hc
    · exfalso
      have h1 := hc.1
      simp at h1
      omega
    · rfl
  exact ⟨hstep s, by rw [hstep s]; exact hstep initState⟩

/-- C5: from the initial state, `retries + 1` absent cycles, one cycle
with a trigger present, then `retries + 1` absent cycles dispatch exactly
two notifications in total. -/
theorem round_trip_two_notifications (triggers : List String) (r : Nat)
    (A B : List (List String)) (p : List String)
    (hA : ∀ o ∈ A, isAbsent triggers o = true)
    (hB : ∀ o ∈ B, isAbsent triggers o = true)
    (hp : isAbsent triggers p = false)
    (hlA : A.length = r + 1) (hlB : B.length = r + 1) :
    fireCount triggers (r : Int) initState (A ++ p :: B) = 2 := by
  have h0 : initState = (⟨0, decide (r < 0)⟩ : CtrlState) := by
    simp [initState]
  rw [fireCount, h0, fireFlags_append, List.count_append]
  have c1 := fireCount_absent_run triggers r A hA 0
  rw [fireCount] at c1
  rw [c1, if_pos (by omega)]
  rw [runCycles_absent_run triggers r A hA 0]
  have hst : (⟨0 + A.length, decide (r < 0 + A.length)⟩ : CtrlState) =
      ⟨r + 1, true⟩ := by
    congr 1
    · omega
    · exact decide_eq_true (by omega)
  rw [hst]
  have hcond : ¬(isAbsent triggers p = true) := by simp [hp]
  have hpstep : runCycle triggers (r : Int) ⟨r + 1, true⟩ p =
      (initState, false) := by
    unfold runCycle
    dsimp only
    rw [if_neg hcond]
    split_ifs with hc
    · exfalso
      have h1 := hc.1
      simp at h1
      omega
    · rfl
  rw [fireFlags, hpstep]
  dsimp only
  rw [List.count_cons]
  have c2 := fireCount_absent_run triggers r B hB 0
  rw [fireCount] at c2
  rw [h0, c2, if_pos (by omega)]
  simp

/-- C6: in any state, `notified` can turn from false to true only on a
cycle whose updated `absent_count` strictly exceeds `retries`, and from
true to false only on a cycle observing at least one trigger; this holds
in particular for every state reachable from the initial one. -/
theorem notified_transition_conditions (triggers : List String)
    (retries : Int) (s : CtrlState) (macs : List String) :
    (s.notified = false →
      (runCycle triggers retries s macs).1.notified = true →
      ((runCycle triggers retries s macs).1.absent_count : Int) > retries)
    ∧ (s.notified = true →
      (runCycle triggers retries s macs).1.notified = false →
      isAbsent triggers macs = false) := by
  unfold runCycle
  dsimp only
  by_cases habs : isAbsent triggers macs
  · rw [if_pos habs]
    dsimp only
    split_ifs with hc
    · refine ⟨fun _ _ => hc.1, fun hn _ => ?_⟩
      rw [hn] at hc
      exact absurd hc.2 (by simp)
    · refine ⟨fun hn ht => ?_, fun ht hf => ?_⟩
      · exact absurd ht (by simp [hn])
      · exact absurd hf (by simp [ht])
  · rw [if_neg habs]
    dsimp only
    split_ifs with hc
    · exact ⟨fun _ _ => hc.1, fun _ _ => by simpa using habs⟩
    · exact ⟨fun _ ht => absurd ht (by simp), fun _ _ => by simpa using habs⟩

/-- C10: with a negative `retries` (the code never validates the
configured value), the very first cycle dispatches a notification even
when a configured trigger is observed, because the reset
`absent_count = 0` already exceeds `retries`. -/
theorem negative_retries_fires_despite_presence (triggers : List String)
    (retries : Int) (macs : List String) (h : retries < 0)
    (hp : isAbsent triggers macs = false) :
    (runCycle triggers retries initState macs).2 = true ∧
    (runCycle triggers retries initState macs).1.notified = true := by
  have hcond : ¬(isAbsent triggers macs = true) := by simp [hp]
  unfold runCycle
  dsimp only
  rw [if_neg hcond]
  split_ifs with hc
  · exact ⟨rfl, rfl⟩
  · exfalso
    refine hc ⟨?_, rfl⟩
    simp only [Nat.cast_zero]
    omega

lemma publishRun_fst_le (statuses : Nat → Int) :
    ∀ fuel a, (publishRun statuses a fuel).1 ≤ a + fuel := by
  intro fuel
  induction fuel with
  | zero => intro a; simp [publishRun]
  | succ n ih =>
    intro a
    rw [publishRun]
    split_ifs with hs
    · simp
    · have := ih (a + 1)
      omega

lemma publishRun_first_success (statuses : Nat → Int) :
    ∀ fuel a k, k < fuel → statuses (a + k) = 0 →
      (∀ j, j < k → statuses (a + j) ≠ 0) →
      publishRun statuses a fuel = (a + k + 1, true) := by
  intro fuel
  induction fuel with
  | zero => intro a k hk _ _; exact absurd hk (Nat.not_lt_zero k)
  | succ n ih =>
    intro a k hk hk0 hprev
    rw [publishRun]
    cases k with
    | zero =>
      rw [if_pos (by simpa using hk0)]
    | succ k2 =>
      have hne : statuses a ≠ 0 := by simpa using hprev 0 (by omega)
      rw [if_neg hne]
      have e : a + (k2 + 1) = (a + 1) + k2 := by omega
      rw [e] at hk0
      have hstep := ih (a + 1) k2 (by omega) hk0
        (fun j hj => by
          have h3 := hprev (j + 1) (by omega)
          have e2 : a + (j + 1) = (a + 1) + j := by omega
          rwa [e2] at h3)
      rw [hstep]
      have e3 : a + 1 + k2 + 1 = a + (k2 + 1) + 1 := by omega
      rw [e3]

lemma publishRun_all_fail (statuses : Nat → Int) :
    ∀ fuel a, (∀ k, k < fuel → statuses (a + k) ≠ 0) →
      publishRun statuses a fuel = (a + fuel, false) := by
  intro fuel
  induction fuel with
  | zero => intro a _; simp [publishRun]
  | succ n ih =>
    intro a hall
    rw [publishRun]
    rw [if_neg (by simpa using hall 0 (by omega))]
    have hstep := ih (a + 1)
      (fun k hk => by
        have h3 := hall (k + 1) (by omega)
        have e : a + (k + 1) = (a + 1) + k := by omega
        rwa [e] at h3)
    rw [hstep]
    have e2 : a + 1 + n = a + (n + 1) := by omega
    rw [e2]

/-- C7: one `__publish__` call performs at most 5 publish attempts; it
stops with the first attempt whose status reports success, and when all
5 attempts report failure it stops after exactly 5 attempts with an
unsuccessful outcome, returning normally. -/
theorem publish_at_most_five_attempts_first_success
    (statuses : Nat → Int) :
    (publishResult statuses).1 ≤ 5
    ∧ (∀ k, k < 5 → statuses k = 0 → (∀ j, j < k → statuses j ≠ 0) →
        publishResult statuses = (k + 1, true))
    ∧ ((∀ k, k < 5 → statuses k ≠ 0) →
        publishResult statuses = (5, false)) := by
  refine ⟨by simpa [publishResult] using publishRun_fst_le statuses 5 0,
    fun k hk hk0 hprev => ?_, fun hall => ?_⟩
  · have := publishRun_first_success statuses 5 0 k hk
      (by simpa using hk0) (fun j hj => by simpa using hprev j hj)
    simpa [publishResult] using this
  · have := publishRun_all_fail statuses 5 0
      (fun k hk => by simpa using hall k hk)
    simpa [publishResult] using this

/-- C8: the controller state produced by a cycle is the same under every
broker environment — no connection or publish failure in the notify path
can influence subsequent cycles — and a non-zero connection result code
is reported only as the failure log line of the `on_connect` callback. -/
theorem notify_failures_isolated (env env2 : BrokerEnv)
    (triggers : List String) (retries : Int) (s : CtrlState)
    (macs : List String) (rc : Int) (hrc : rc ≠ 0) :
    (runCycleNotify env triggers retries s macs).1 =
      (runCycleNotify env2 triggers retries s macs).1
    ∧ on_connect rc = "Failed to connect, return code %d\n" := by
  refine ⟨rfl, ?_⟩
  rw [on_connect, if_neg hrc]

/-- C9 counterexample: at this concrete input the failing scan
propagates its exception out of the cycle — the cycle produces no
successor state, so the process does not log, does not proceed, and does
not treat the cycle as inconclusive. -/
theorem scan_failure_crashes_cycle_cex :
    runCycleScan ["AA:BB"] 0 (Except.error "scan failed") initState =
      Except.error "scan failed" := rfl

/-- C9 amended: `main` has no handler around the scan call, so whenever
the scan fails the exception propagates unchanged out of the cycle, for
every configuration and state: the cycle yields no successor state and
the process crashes instead of logging and continuing. -/
theorem scan_failure_propagates (triggers : List String) (retries : Int)
    (e : String) (s : CtrlState) :
    runCycleScan triggers retries (Except.error e) s =
      Except.error e := rfl

/-- Witness for C2 at a concrete input: triggers `["AA:BB"]`,
`retries = 0`, initial state, a present observation list, and two absent
cycles. -/
theorem notification_iff_threshold_and_once_per_episode_witness :
    ((runCycle ["AA:BB"] 0 initState []).2 = true ↔
      ((runCycle ["AA:BB"] 0 initState []).1.absent_count : Int) > 0 ∧
        initState.notified = false)
    ∧ fireCount ["AA:BB"] 0 initState [[], []] ≤ 1 :=
  notification_iff_threshold_and_once_per_episode ["AA:BB"] 0 initState
    [] [[], []] (by decide) (by decide)

/-- Witness for C3 at a concrete input: `retries = 1` and three absent
cycles; the fire flag holds exactly at index 1, the second cycle. -/
theorem strict_threshold_fires_on_retries_plus_one_witness :
    (fireFlags ["AA:BB"] ((1 : Nat) : Int) initState
        [[], [], []]).getD 1 false = true ↔
      (1 = 1 ∧ 1 < ([[], [], []] : List (List String)).length) :=
  strict_threshold_fires_on_retries_plus_one ["AA:BB"] 1 [[], [], []] 1
    (by decide)

/-- Witness for C4 at a concrete input: a presence cycle from the state
`absent_count = 7`, `notified = true` resets to the initial state, and a
second presence cycle keeps it there. -/
theorem presence_resets_state_idempotent_witness :
    (runCycle ["AA:BB"] 0 ⟨7, true⟩ ["AA:BB"]).1 = initState ∧
    (runCycle ["AA:BB"] 0 (runCycle ["AA:BB"] 0 ⟨7, true⟩ ["AA:BB"]).1
      ["AA:BB"]).1 = initState :=
  presence_resets_state_idempotent ["AA:BB"] 0 ⟨7, true⟩ ["AA:BB"]
    (by decide) (by decide)

/-- Witness for C5 at a concrete input: `retries = 0`, one absent cycle,
one present cycle, one absent cycle — exactly two notifications. -/
theorem round_trip_two_notifications_witness :
    fireCount ["AA:BB"] ((0 : Nat) : Int) initState
      ([[]] ++ ["AA:BB"] :: [[]]) = 2 :=
  round_trip_two_notifications ["AA:BB"] 0 [[]] [[]] ["AA:BB"]
    (by decide) (by decide) (by decide) (by decide) (by decide)

/-- Witness for C6 at a concrete input: on the first absent cycle from
the initial state with `retries = 0`, `notified` turns true and indeed
the updated `absent_count` exceeds `retries`. -/
theorem notified_transition_conditions_witness :
    ((runCycle ["AA:BB"] 0 initState []).1.absent_count : Int) > 0 :=
  (notified_transition_conditions ["AA:BB"] 0 initState []).1 rfl
    (by decide)

/-- Witness for C7 at a concrete input: an oracle on which every attempt
fails makes the loop stop after exactly 5 attempts without success. -/
theorem publish_at_most_five_attempts_first_success_witness :
    publishResult (fun _ => (1 : Int)) = (5, false) :=
  (publish_at_most_five_attempts_first_success
    (fun _ => (1 : Int))).2.2 (fun _ _ => by decide)

/-- Witness for C8 at a concrete input: a succeeding and a failing
broker environment produce the same controller state, and the failing
connection result code 5 yields only the failure log line. -/
theorem notify_failures_isolated_witness :
    (runCycleNotify ⟨0, fun _ => 0⟩ ["AA:BB"] 0 initState []).1 =
      (runCycleNotify ⟨5, fun _ => 1⟩ ["AA:BB"] 0 initState []).1
    ∧ on_connect 5 = "Failed to connect, return code %d\n" :=
  notify_failures_isolated ⟨0, fun _ => 0⟩ ⟨5, fun _ => 1⟩ ["AA:BB"] 0
    initState [] 5 (by decide)

/-- Witness for C10 at a concrete input: with `retries = -1`, the very
first cycle notifies even though the trigger is observed. -/
theorem negative_retries_fires_despite_presence_witness :
    (runCycle ["AA:BB"] (-1) initState ["AA:BB"]).2 = true ∧
    (runCycle ["AA:BB"] (-1) initState ["AA:BB"]).1.notified = true :=
  negative_retries_fires_despite_presence ["AA:BB"] (-1) ["AA:BB"]
    (by decide) (by decide)

end PyAbsence
